import Mathlib

/-!
Verification of the Michigan football fetch-merge-persist-aggregate pipeline.

The Python sources are embedded shallowly:
* strings are modelled as `List Char` where parsing matters and as `String`
  where only equality is used;
* SQLite tables are modelled as lists of typed rows, with SQL `=` on a
  nullable key modelled by `sqlEqId` (NULL compares unequal to everything);
* numeric division is carried out in `ℚ`;
* Python exceptions are modelled with `Except PyErr`.
-/

namespace MFootball

/-- Model of Python `str.split(sep)` on a character list: returns the
(nonempty) list of separator-free chunks, keeping empty chunks, so that
`"".split(sep) = [""]`. -/
def splitSep (sep : Char) : List Char → List (List Char)
  | [] => [[]]
  | c :: rest =>
    match splitSep sep rest with
    | [] => [[]]
    | p :: ps => if c = sep then [] :: p :: ps else (c :: p) :: ps

/-- Numeric value of a list of decimal digit characters. -/
def digitsVal (l : List Char) : ℕ :=
  l.foldl (fun acc c => 10 * acc + (c.toNat - 48)) 0

/-- Model of Python `int(s)` restricted to the canonical non-negative form:
succeeds on a nonempty all-digits chunk (after `split('-')` a chunk can
contain no sign), fails otherwise. -/
def parseDigits (l : List Char) : Option ℕ :=
  if l ≠ [] ∧ l.all Char.isDigit then some (digitsVal l) else none

/-- Model of `completed, attempted = map(int, c_att.split('-'))`:
succeeds exactly when splitting on `'-'` yields two integer chunks;
any other shape raises `ValueError` in Python, modelled as `none`. -/
def parseCATT (s : List Char) : Option (ℕ × ℕ) :=
  match splitSep '-' s with
  | [c, a] =>
    match parseDigits c, parseDigits a with
    | some cv, some av => some (cv, av)
    | _, _ => none
  | _ => none

/-- Completion percentage from a nullable `C_ATT` string as computed by
`get_completion_by_wind_speed` in final.py: `(completed / attempted) * 100
if attempted > 0 else 0`, with `ValueError` and `None` handled as 0. -/
def completionPctWind (c_att : Option (List Char)) : ℚ :=
  match c_att with
  | none => 0
  | some s =>
    match parseCATT s with
    | none => 0
    | some (completed, attempted) =>
      if attempted > 0 then ((completed : ℚ) / (attempted : ℚ)) * 100 else 0

/-- Completion percentage from a nullable `C_ATT` string as computed by
`get_avg_score_per_percentage` in final.py: same as `completionPctWind`
except the guard is `attempted != 0`. -/
def completionPctAvg (c_att : Option (List Char)) : ℚ :=
  match c_att with
  | none => 0
  | some s =>
    match parseCATT s with
    | none => 0
    | some (completed, attempted) =>
      if attempted ≠ 0 then ((completed : ℚ) / (attempted : ℚ)) * 100 else 0

/-- Completion percentage from the nullable integer columns `completed` and
`attempted`, as computed by `get_avg_score_per_percentage` in
calculations.py. -/
def completionPctInts (completed attempted : Option ℤ) : ℚ :=
  match completed, attempted with
  | some c, some a => if a ≠ 0 then ((c : ℚ) / (a : ℚ)) * 100 else 0
  | _, _ => 0

/-- A list of digit characters contains no separator. -/
theorem digits_no_sep {l : List Char} (h : l.all Char.isDigit) : '-' ∉ l := by
  intro hmem
  have := List.all_eq_true.mp h _ hmem
  simp [Char.isDigit] at this

theorem splitSep_of_not_mem {sep : Char} {l : List Char} (h : sep ∉ l) :
    splitSep sep l = [l] := by
  induction l with
  | nil => rfl
  | cons c rest ih =>
    have hc : c ≠ sep := fun hc => h (hc ▸ List.mem_cons_self c rest)
    have hrest : sep ∉ rest := fun hr => h (List.mem_cons_of_mem _ hr)
    simp only [splitSep, ih hrest]
    simp [hc]

theorem splitSep_ne_nil (sep : Char) : ∀ l : List Char, splitSep sep l ≠ []
  | [] => by simp [splitSep]
  | c :: rest => by
    simp only [splitSep]
    cases hq : splitSep sep rest with
    | nil => simp
    | cons p ps => by_cases hc : c = sep <;> simp [hc]

theorem splitSep_append {sep : Char} {l1 l2 : List Char} (h : sep ∉ l1) :
    splitSep sep (l1 ++ sep :: l2) = l1 :: splitSep sep l2 := by
  induction l1 with
  | nil =>
    rw [List.nil_append]
    cases hq : splitSep sep l2 with
    | nil => exact absurd hq (splitSep_ne_nil sep l2)
    | cons p ps => simp [splitSep, hq]
  | cons c rest ih =>
    have hc : c ≠ sep := fun hc => h (hc ▸ List.mem_cons_self c rest)
    have hrest : sep ∉ rest := fun hr => h (List.mem_cons_of_mem _ hr)
    simp only [List.cons_append, splitSep, List.append_eq]
    rw [ih hrest]
    simp [hc]

theorem parseDigits_of_digits {l : List Char} (hne : l ≠ [])
    (hd : l.all Char.isDigit) : parseDigits l = some (digitsVal l) := by
  simp [parseDigits, hne, hd]

theorem parseCATT_of_digits {ds1 ds2 : List Char}
    (h1 : ds1 ≠ [] ∧ ds1.all Char.isDigit)
    (h2 : ds2 ≠ [] ∧ ds2.all Char.isDigit) :
    parseCATT (ds1 ++ '-' :: ds2) = some (digitsVal ds1, digitsVal ds2) := by
  have hsplit : splitSep '-' (ds1 ++ '-' :: ds2) = ds1 :: splitSep '-' ds2 :=
    splitSep_append (digits_no_sep h1.2)
  have hsplit2 : splitSep '-' ds2 = [ds2] := splitSep_of_not_mem (digits_no_sep h2.2)
  simp only [parseCATT, hsplit, hsplit2, parseDigits_of_digits h1.1 h1.2,
    parseDigits_of_digits h2.1 h2.2]

/-- C1: for every completion string of the form "C-A" with non-negative
integers C and A and A > 0, the completion percentage computed by the
aggregation functions (`get_completion_by_wind_speed` parsing `C_ATT`,
`get_avg_score_per_percentage` in final.py, and the `completed`/`attempted`
division in calculations.py) equals 100*C/A; for A = 0 and for every
string the parse rejects, the computed percentage is exactly 0. -/
theorem completion_percentage_spec (ds1 ds2 : List Char)
    (h1 : ds1 ≠ [] ∧ ds1.all Char.isDigit)
    (h2 : ds2 ≠ [] ∧ ds2.all Char.isDigit) :
    (0 < digitsVal ds2 →
      completionPctWind (some (ds1 ++ '-' :: ds2)) =
        100 * (digitsVal ds1 : ℚ) / (digitsVal ds2 : ℚ) ∧
      completionPctAvg (some (ds1 ++ '-' :: ds2)) =
        100 * (digitsVal ds1 : ℚ) / (digitsVal ds2 : ℚ) ∧
      completionPctInts (some (digitsVal ds1 : ℤ)) (some (digitsVal ds2 : ℤ)) =
        100 * (digitsVal ds1 : ℚ) / (digitsVal ds2 : ℚ)) ∧
    (digitsVal ds2 = 0 →
      completionPctWind (some (ds1 ++ '-' :: ds2)) = 0 ∧
      completionPctAvg (some (ds1 ++ '-' :: ds2)) = 0 ∧
      completionPctInts (some (digitsVal ds1 : ℤ)) (some 0) = 0) ∧
    (∀ s : List Char, parseCATT s = none →
      completionPctWind (some s) = 0 ∧ completionPctAvg (some s) = 0) ∧
    (completionPctWind none = 0 ∧ completionPctAvg none = 0) := by
  have hp := parseCATT_of_digits h1 h2
  refine ⟨?_, ?_, ?_, rfl, rfl⟩
  · intro hpos
    have hne : digitsVal ds2 ≠ 0 := Nat.pos_iff_ne_zero.mp hpos
    have hq : ((digitsVal ds2 : ℚ)) ≠ 0 := by exact_mod_cast hne
    have hdiv : ((digitsVal ds1 : ℚ) / (digitsVal ds2 : ℚ)) * 100 =
        100 * (digitsVal ds1 : ℚ) / (digitsVal ds2 : ℚ) := by
      rw [div_mul_eq_mul_div, mul_comm]
    refine ⟨?_, ?_, ?_⟩
    · simp only [completionPctWind, hp]
      rw [if_pos hpos]
      exact hdiv
    · simp only [completionPctAvg, hp]
      rw [if_pos hne]
      exact hdiv
    · simp only [completionPctInts]
      have hz : (digitsVal ds2 : ℤ) ≠ 0 := by exact_mod_cast hne
      rw [if_pos hz]
      push_cast
      exact hdiv
  · intro hzero
    refine ⟨?_, ?_, ?_⟩
    · simp [completionPctWind, hp, hzero]
    · simp [completionPctAvg, hp, hzero]
    · simp [completionPctInts]
  · intro s hs
    constructor
    · simp [completionPctWind, hs]
    · simp [completionPctAvg, hs]

/-- Witness for C1 at the concrete string "18-29". -/
theorem completion_percentage_spec_witness :
    completionPctWind (some ['1', '8', '-', '2', '9']) = 100 * 18 / 29 ∧
    completionPctAvg (some ['1', '8', '-', '2', '9']) = 100 * 18 / 29 ∧
    completionPctWind (some ['1', '8', '-', '0']) = 0 ∧
    completionPctWind (some ['1', '8']) = 0 := by
  have h := completion_percentage_spec ['1', '8'] ['2', '9']
    (by decide) (by decide)
  have h0 := completion_percentage_spec ['1', '8'] ['0']
    (by decide) (by decide)
  have hpos : 0 < digitsVal ['2', '9'] := by decide
  have hz : digitsVal ['0'] = 0 := by decide
  refine ⟨?_, ?_, ?_, ?_⟩
  · have := (h.1 hpos).1
    norm_num [show digitsVal ['1', '8'] = 18 from rfl,
      show digitsVal ['2', '9'] = 29 from rfl] at this ⊢
    exact this
  · have := (h.1 hpos).2.1
    norm_num [show digitsVal ['1', '8'] = 18 from rfl,
      show digitsVal ['2', '9'] = 29 from rfl] at this ⊢
    exact this
  · exact (h0.2.1 hz).1
  · exact ((h.2.2.1) ['1', '8'] (by decide)).1

/-- The `home_away` field, always either the string 'Home' or 'Away'. -/
inductive HomeAway
  | home
  | away
deriving DecidableEq

/-- One raw game object from the `/games` endpoint: every field is read
with `.get`, so each may be missing (null). `start_date` is assumed
present since the code calls `.split` on it unguarded. -/
structure RawGame where
  id : Option ℤ
  start_date : List Char
  home_team : Option String
  away_team : Option String
  home_points : Option ℤ
  away_points : Option ℤ
deriving DecidableEq

/-- A row of the GameResults table (final.py schema). -/
structure GameResultRec where
  gameID : Option ℤ
  date : List Char
  home_away : HomeAway
  opponent : Option String
  total_points : Option ℤ
deriving DecidableEq

/-- Per-game extraction step of `get_michigan_game_results`: home/away
determination by string equality of `home_team` with 'Michigan', and the
`date.split('T')[0]` date truncation. -/
def mkGameResult (g : RawGame) : GameResultRec :=
  if g.home_team = some "Michigan" then
    { gameID := g.id, date := (splitSep 'T' g.start_date).headI,
      home_away := HomeAway.home, opponent := g.away_team,
      total_points := g.home_points }
  else
    { gameID := g.id, date := (splitSep 'T' g.start_date).headI,
      home_away := HomeAway.away, opponent := g.home_team,
      total_points := g.away_points }

/-- C6: if `home_team` equals 'Michigan' the extractor assigns
`home_away = 'Home'`, `opponent = away_team`, `totalPoints = home_points`;
otherwise `home_away = 'Away'`, `opponent = home_team`,
`totalPoints = away_points`. -/
theorem home_away_determination (g : RawGame) :
    (g.home_team = some "Michigan" →
      (mkGameResult g).home_away = HomeAway.home ∧
      (mkGameResult g).opponent = g.away_team ∧
      (mkGameResult g).total_points = g.home_points) ∧
    (g.home_team ≠ some "Michigan" →
      (mkGameResult g).home_away = HomeAway.away ∧
      (mkGameResult g).opponent = g.home_team ∧
      (mkGameResult g).total_points = g.away_points) := by
  constructor
  · intro h
    simp [mkGameResult, h]
  · intro h
    simp [mkGameResult, h]

/-- A concrete raw game in which Michigan is the home team. -/
def rawHomeGame : RawGame :=
  { id := some 1, start_date := ['2', '0', '2', '4', 'T', 'x'],
    home_team := some "Michigan", away_team := some "Ohio State",
    home_points := some 30, away_points := some 24 }

/-- A concrete raw game in which Michigan is the away team. -/
def rawAwayGame : RawGame :=
  { id := some 2, start_date := ['2', '0', '2', '3', 'T', 'x'],
    home_team := some "Ohio State", away_team := some "Michigan",
    home_points := some 24, away_points := some 30 }

/-- Witness for C6 at a concrete home game and a concrete away game. -/
theorem home_away_determination_witness :
    (mkGameResult rawHomeGame).opponent = some "Ohio State" ∧
    (mkGameResult rawHomeGame).total_points = some 30 ∧
    (mkGameResult rawAwayGame).home_away = HomeAway.away := by
  have h1 := (home_away_determination rawHomeGame).1 rfl
  have h2 := (home_away_determination rawAwayGame).2 (by decide)
  exact ⟨h1.2.1, h1.2.2, h2.1⟩

/-- SQL equality on the nullable `gameID` key: `WHERE gameID = ?` matches a
row exactly when both values are non-NULL and equal (NULL never equals
anything in SQL). -/
def sqlEqId : Option ℤ → Option ℤ → Bool
  | some a, some b => a == b
  | _, _ => false

/-- A row of the GameStats table (final.py schema); the values arrive from
the extractor as nullable strings. -/
structure GameStatsRec where
  gameID : Option ℤ
  rushingAttempts : Option String
  completionAttempts : Option String
  c_att : Option String
  rushingYards : Option String
  passingYards : Option String
deriving DecidableEq

/-- final.py `insert_game_results`: a SELECT by `gameID` followed by an
INSERT only when no row matched; an existing row is never updated. -/
def insert_game_results (db : List GameResultRec) (r : GameResultRec) :
    List GameResultRec :=
  if db.any (fun row => sqlEqId row.gameID r.gameID) then db else db ++ [r]

/-- final.py `insert_game_stats`: identical existence-check-then-insert
discipline on the GameStats table. -/
def insert_game_stats (db : List GameStatsRec) (r : GameStatsRec) :
    List GameStatsRec :=
  if db.any (fun row => sqlEqId row.gameID r.gameID) then db else db ++ [r]

theorem sqlEqId_some_right {x : Option ℤ} {n : ℤ} :
    sqlEqId x (some n) = true ↔ x = some n := by
  cases x with
  | none => simp [sqlEqId]
  | some a => simp [sqlEqId, beq_iff_eq]

theorem sqlEqId_some_some (n : ℤ) : sqlEqId (some n) (some n) = true := by
  simp [sqlEqId]

/-- Proof-side abstraction of the check-then-insert pattern shared by
`insert_game_results` and `insert_game_stats`. -/
def checkInsert {α : Type} (key : α → Option ℤ) (db : List α) (r : α) :
    List α :=
  if db.any (fun row => sqlEqId (key row) (key r)) then db else db ++ [r]

theorem insert_game_results_eq (db : List GameResultRec) (r : GameResultRec) :
    insert_game_results db r = checkInsert (fun row => row.gameID) db r := rfl

theorem insert_game_stats_eq (db : List GameStatsRec) (r : GameStatsRec) :
    insert_game_stats db r = checkInsert (fun row => row.gameID) db r := rfl

theorem checkInsert_any_true {α : Type} {key : α → Option ℤ}
    {db : List α} {r : α} {n : ℤ} (hr : key r = some n)
    (hmem : ∃ row ∈ db, key row = some n) :
    db.any (fun row => sqlEqId (key row) (key r)) = true := by
  obtain ⟨row, hrow, hkey⟩ := hmem
  refine List.any_eq_true.mpr ⟨row, hrow, ?_⟩
  rw [hr, hkey]
  exact sqlEqId_some_some n

theorem checkInsert_noop {α : Type} (key : α → Option ℤ)
    (db : List α) (r : α) (n : ℤ) (hr : key r = some n)
    (hmem : ∃ row ∈ db, key row = some n) :
    checkInsert key db r = db := by
  unfold checkInsert
  rw [checkInsert_any_true hr hmem]
  simp

theorem checkInsert_fresh {α : Type} (key : α → Option ℤ)
    (db : List α) (r : α) (n : ℤ) (hr : key r = some n)
    (hcount : db.countP (fun row => key row == some n) = 0) :
    checkInsert key db r = db ++ [r] ∧
    (db ++ [r]).countP (fun row => key row == some n) = 1 := by
  have hnone : ∀ row ∈ db, ¬(key row == some n) = true :=
    List.countP_eq_zero.mp hcount
  have hany : db.any (fun row => sqlEqId (key row) (key r)) = false := by
    rw [List.any_eq_false]
    intro row hrow
    rw [hr]
    intro hcontra
    exact hnone row hrow (by
      rw [beq_iff_eq]
      exact sqlEqId_some_right.mp hcontra)
  constructor
  · unfold checkInsert
    simp [hany]
  · rw [List.countP_append, hcount, List.countP_cons]
    simp [hr]

theorem checkInsert_idem {α : Type} (key : α → Option ℤ)
    (db : List α) (r : α) (n : ℤ) (hr : key r = some n) :
    checkInsert key (checkInsert key db r) r = checkInsert key db r := by
  by_cases h : db.any (fun row => sqlEqId (key row) (key r)) = true
  · unfold checkInsert
    simp [h]
  · have h1 : checkInsert key db r = db ++ [r] := by
      unfold checkInsert
      simp [h]
    rw [h1]
    apply checkInsert_noop key _ r n hr
    exact ⟨r, by simp, hr⟩

/-- One combined in-memory record from the merge step (the flat dictionary
inserted by apis.py `insert_game_data`); stats and weather keys may be
absent when the keyed lookup found no match. -/
structure CombinedRec where
  gameID : Option ℤ
  date : List Char
  home_away : HomeAway
  opponent : Option String
  total_points : Option ℤ
  rushingAttempts : Option String
  completionAttempts : Option String
  completed : Option ℤ
  attempted : Option ℤ
  rushingYards : Option String
  passingYards : Option String
  max_temperature : Option ℚ
  min_temperature : Option ℚ
  mean_temperature : Option ℚ
  precipitation_sum : Option ℚ
  rain_sum : Option ℚ
  snowfall_sum : Option ℚ
  max_wind_speed : Option ℚ
  max_wind_gust : Option ℚ
deriving DecidableEq

/-- The selection loop of apis.py `insert_game_data`: walk the input,
stop as soon as 25 records were selected, skip records whose `gameID`
already has a row in the Games table. -/
def selectLoop (db : List CombinedRec) :
    List CombinedRec → List CombinedRec → List CombinedRec
  | acc, [] => acc
  | acc, g :: gs =>
    if 25 ≤ acc.length then acc
    else if db.any (fun row => sqlEqId row.gameID g.gameID) then
      selectLoop db acc gs
    else selectLoop db (acc ++ [g]) gs

def selectToInsert (db data : List CombinedRec) : List CombinedRec :=
  selectLoop db [] data

/-- True when no two selected records share a non-NULL `gameID`; a
violation would make the second INSERT raise `IntegrityError` on the
`gameID INTEGER PRIMARY KEY` column. -/
def noDupIds : List CombinedRec → Bool
  | [] => true
  | g :: gs => gs.all (fun h => !sqlEqId g.gameID h.gameID) && noDupIds gs

/-- apis.py `insert_game_data`: select up to 25 non-duplicate records,
then insert them; a primary-key collision inside the batch raises before
the commit, leaving the table unchanged. -/
def insert_game_data (db data : List CombinedRec) :
    Except Unit (List CombinedRec) :=
  if noDupIds (selectToInsert db data) then
    Except.ok (db ++ selectToInsert db data)
  else Except.error ()

/-- The Games table as observed after a call to `insert_game_data`
(unchanged when the call raised before committing). -/
def runInsertGameData (db data : List CombinedRec) : List CombinedRec :=
  match insert_game_data db data with
  | Except.ok db2 => db2
  | Except.error _ => db

/-- C3: for every gameId, inserting a record whose gameId is already
present is a no-op for all three persistence inserts; starting from a
table without the gameId, one call leaves exactly one row for it, and a
repeated call changes nothing. -/
theorem upsert_idempotent (n : ℤ) :
    (∀ (db : List GameResultRec) (r : GameResultRec), r.gameID = some n →
      ((∃ row ∈ db, row.gameID = some n) → insert_game_results db r = db) ∧
      insert_game_results (insert_game_results db r) r =
        insert_game_results db r ∧
      (db.countP (fun row => row.gameID == some n) = 0 →
        (insert_game_results db r).countP
          (fun row => row.gameID == some n) = 1)) ∧
    (∀ (db : List GameStatsRec) (r : GameStatsRec), r.gameID = some n →
      ((∃ row ∈ db, row.gameID = some n) → insert_game_stats db r = db) ∧
      insert_game_stats (insert_game_stats db r) r = insert_game_stats db r ∧
      (db.countP (fun row => row.gameID == some n) = 0 →
        (insert_game_stats db r).countP
          (fun row => row.gameID == some n) = 1)) ∧
    (∀ (db : List CombinedRec) (r : CombinedRec), r.gameID = some n →
      ((∃ row ∈ db, row.gameID = some n) → runInsertGameData db [r] = db) ∧
      runInsertGameData (runInsertGameData db [r]) [r] =
        runInsertGameData db [r] ∧
      (db.countP (fun row => row.gameID == some n) = 0 →
        (runInsertGameData db [r]).countP
          (fun row => row.gameID == some n) = 1)) := by
  have hdata : ∀ (db : List CombinedRec) (r : CombinedRec),
      r.gameID = some n → runInsertGameData db [r] = checkInsert
        (fun row => row.gameID) db r := by
    intro db r hr
    by_cases h : db.any (fun row => sqlEqId row.gameID r.gameID) = true
    · have hsel : selectToInsert db [r] = [] := by
        unfold selectToInsert
        simp [selectLoop, h]
      unfold runInsertGameData insert_game_data
      rw [hsel]
      unfold checkInsert
      simp [noDupIds, h]
    · have hsel : selectToInsert db [r] = [r] := by
        unfold selectToInsert
        simp [selectLoop, h]
      unfold runInsertGameData insert_game_data
      rw [hsel]
      unfold checkInsert
      simp [noDupIds, h]
  refine ⟨?_, ?_, ?_⟩
  · intro db r hr
    simp only [insert_game_results_eq]
    exact ⟨checkInsert_noop _ db r n hr,
      checkInsert_idem _ db r n hr,
      fun hc => by
        rw [(checkInsert_fresh _ db r n hr hc).1]
        exact (checkInsert_fresh _ db r n hr hc).2⟩
  · intro db r hr
    simp only [insert_game_stats_eq]
    exact ⟨checkInsert_noop _ db r n hr,
      checkInsert_idem _ db r n hr,
      fun hc => by
        rw [(checkInsert_fresh _ db r n hr hc).1]
        exact (checkInsert_fresh _ db r n hr hc).2⟩
  · intro db r hr
    rw [hdata db r hr,
      hdata (checkInsert (fun row => row.gameID) db r) r hr]
    exact ⟨checkInsert_noop _ db r n hr,
      checkInsert_idem _ db r n hr,
      fun hc => by
        rw [(checkInsert_fresh _ db r n hr hc).1]
        exact (checkInsert_fresh _ db r n hr hc).2⟩

/-- A combined record that is all NULLs except for its `gameID`. -/
def mkCombined (n : ℤ) : CombinedRec :=
  { gameID := some n, date := [], home_away := HomeAway.home,
    opponent := none, total_points := none, rushingAttempts := none,
    completionAttempts := none, completed := none, attempted := none,
    rushingYards := none, passingYards := none, max_temperature := none,
    min_temperature := none, mean_temperature := none,
    precipitation_sum := none, rain_sum := none, snowfall_sum := none,
    max_wind_speed := none, max_wind_gust := none }

/-- Witness for C3 at gameId 7: a duplicate second insert is a no-op and
a single row remains. -/
theorem upsert_idempotent_witness :
    insert_game_results (insert_game_results [] (mkGameResult rawHomeGame))
      (mkGameResult rawHomeGame) =
      insert_game_results [] (mkGameResult rawHomeGame) ∧
    runInsertGameData (runInsertGameData [] [mkCombined 7]) [mkCombined 7] =
      runInsertGameData [] [mkCombined 7] ∧
    (runInsertGameData [] [mkCombined 7]).countP
      (fun row => row.gameID == some 7) = 1 := by
  have h1 := ((upsert_idempotent 1).1 [] (mkGameResult rawHomeGame)
    (by decide)).2.1
  have h2 := (upsert_idempotent 7).2.2 [] (mkCombined 7) rfl
  exact ⟨h1, h2.2.1, h2.2.2 rfl⟩

theorem selectLoop_cons (db acc : List CombinedRec) (g : CombinedRec)
    (gs : List CombinedRec) :
    selectLoop db acc (g :: gs) =
      if 25 ≤ acc.length then acc
      else if db.any (fun row => sqlEqId row.gameID g.gameID) then
        selectLoop db acc gs
      else selectLoop db (acc ++ [g]) gs := rfl

theorem selectLoop_stop (db : List CombinedRec) (acc : List CombinedRec)
    (gs : List CombinedRec) (h : 25 ≤ acc.length) :
    selectLoop db acc gs = acc := by
  cases gs with
  | nil => rfl
  | cons g gs =>
    unfold selectLoop
    rw [if_pos h]

theorem selectLoop_length_le (db : List CombinedRec) :
    ∀ (gs acc : List CombinedRec), acc.length ≤ 25 →
      (selectLoop db acc gs).length ≤ 25 := by
  intro gs
  induction gs with
  | nil => intro acc h; exact h
  | cons g gs ih =>
    intro acc h
    unfold selectLoop
    by_cases h25 : 25 ≤ acc.length
    · rw [if_pos h25]; exact h
    · rw [if_neg h25]
      by_cases hdup : db.any (fun row => sqlEqId row.gameID g.gameID) = true
      · rw [if_pos hdup]; exact ih acc h
      · rw [if_neg hdup]
        apply ih
        simp
        omega

theorem selectLoop_append (db : List CombinedRec) :
    ∀ (gs extra acc : List CombinedRec),
      selectLoop db acc (gs ++ extra) =
        selectLoop db (selectLoop db acc gs) extra := by
  intro gs
  induction gs with
  | nil => intro extra acc; rfl
  | cons g gs ih =>
    intro extra acc
    rw [List.cons_append, selectLoop_cons, selectLoop_cons db acc g gs]
    by_cases h25 : 25 ≤ acc.length
    · rw [if_pos h25, if_pos h25, selectLoop_stop db acc extra h25]
    · rw [if_neg h25, if_neg h25]
      by_cases hdup : db.any (fun row => sqlEqId row.gameID g.gameID) = true
      · rw [if_pos hdup, if_pos hdup, ih]
      · rw [if_neg hdup, if_neg hdup, ih]

/-- C10: a single call to `insert_game_data` never adds more than 25 rows
to the Games table, whatever the input list and table state; and once the
first 25 non-duplicate records have been selected, any further input
records are silently dropped (they do not change the selection). -/
theorem insert_game_data_limit_25 :
    (∀ db data : List CombinedRec,
      (selectToInsert db data).length ≤ 25 ∧
      (runInsertGameData db data).length ≤ db.length + 25) ∧
    (∀ db data extra : List CombinedRec,
      (selectToInsert db data).length = 25 →
      selectToInsert db (data ++ extra) = selectToInsert db data) := by
  constructor
  · intro db data
    have hsel : (selectToInsert db data).length ≤ 25 :=
      selectLoop_length_le db data [] (by simp)
    refine ⟨hsel, ?_⟩
    unfold runInsertGameData insert_game_data
    by_cases h : noDupIds (selectToInsert db data) = true
    · rw [if_pos h]
      show (db ++ selectToInsert db data).length ≤ db.length + 25
      simp only [List.length_append]
      omega
    · rw [if_neg h]
      show db.length ≤ db.length + 25
      omega
  · intro db data extra h
    unfold selectToInsert at h ⊢
    rw [selectLoop_append db data extra []]
    exact selectLoop_stop db _ extra (le_of_eq h.symm)

/-- Witness for C10: with 25 fresh records already selected, a 26th
record is dropped. -/
theorem insert_game_data_limit_25_witness :
    selectToInsert []
        (((List.range 25).map (fun i => mkCombined i)) ++ [mkCombined 25]) =
      selectToInsert [] ((List.range 25).map (fun i => mkCombined i)) ∧
    (runInsertGameData []
        (((List.range 25).map (fun i => mkCombined i)) ++ [mkCombined 25])).length
      ≤ 25 := by
  have hlen : (selectToInsert []
      ((List.range 25).map (fun i => mkCombined i))).length = 25 := by decide
  refine ⟨insert_game_data_limit_25.2 [] _ [mkCombined 25] hlen, ?_⟩
  have h := (insert_game_data_limit_25.1 []
    (((List.range 25).map (fun i => mkCombined i)) ++ [mkCombined 25])).2
  simpa using h

/-- Wind-speed tier. -/
inductive WindCat
  | low
  | moderate
  | high
deriving DecidableEq

/-- Wind bucketing of `get_average_percentage_by_wind_speed` (final.py and
calculations.py): null is skipped, `w < 10` low, `10 <= w < 20` moderate,
else high. -/
def windCategory : Option ℚ → Option WindCat
  | none => none
  | some w =>
    if w < 10 then some WindCat.low
    else if 10 ≤ w ∧ w < 20 then some WindCat.moderate
    else some WindCat.high

/-- Wind bucketing of `get_completion_by_wind_speed` (final.py and
calculations.py): null is skipped, `w < 10` low, `10 <= w <= 20` moderate,
else high. -/
def windCategoryCompletion : Option ℚ → Option WindCat
  | none => none
  | some w =>
    if w < 10 then some WindCat.low
    else if 10 ≤ w ∧ w ≤ 20 then some WindCat.moderate
    else some WindCat.high

/-- Temperature tier of `get_total_points_by_temperature`: null is
skipped, `t < 32` cold, `32 <= t <= 50` moderate, else warm. -/
inductive TempCat
  | cold
  | moderate
  | warm
deriving DecidableEq

def tempCategory : Option ℚ → Option TempCat
  | none => none
  | some t =>
    if t < 32 then some TempCat.cold
    else if 32 ≤ t ∧ t ≤ 50 then some TempCat.moderate
    else some TempCat.warm

/-- Completion-percentage range of `get_avg_score_per_percentage`; the
if/elif chain has no else branch, so a percentage matching no range is
dropped. -/
inductive PctRange
  | r0to50
  | r51to60
  | r61to70
  | r71to100
deriving DecidableEq

def pctRangeOf (p : ℚ) : Option PctRange :=
  if p ≤ 50 then some PctRange.r0to50
  else if 51 ≤ p ∧ p ≤ 60 then some PctRange.r51to60
  else if 61 ≤ p ∧ p ≤ 70 then some PctRange.r61to70
  else if 71 ≤ p ∧ p ≤ 100 then some PctRange.r71to100
  else none

/-- One joined row consumed by `get_average_percentage_by_wind_speed`. -/
structure WindRow where
  rushingAttempts : Option ℤ
  completionAttempts : Option ℤ
  max_wind_speed : Option ℚ
deriving DecidableEq

/-- Pass/rush percentage pair: computed only when `rushingAttempts` is
non-null and `completionAttempts` is neither null nor 0, else (0, 0). -/
def passRushPct (r : WindRow) : ℚ × ℚ :=
  match r.rushingAttempts, r.completionAttempts with
  | some ra, some ca =>
    if ca ≠ 0 then
      (((ca : ℚ) / ((ra : ℚ) + (ca : ℚ))) * 100,
       ((ra : ℚ) / ((ra : ℚ) + (ca : ℚ))) * 100)
    else (0, 0)
  | _, _ => (0, 0)

/-- Per-category accumulator of `get_average_percentage_by_wind_speed`. -/
structure CatAcc where
  passTotal : ℚ
  rushTotal : ℚ
  count : ℕ
deriving DecidableEq

def emptyCatAcc : CatAcc := { passTotal := 0, rushTotal := 0, count := 0 }

structure WindResults where
  low : CatAcc
  moderate : CatAcc
  high : CatAcc
deriving DecidableEq

def windResultsInit : WindResults :=
  { low := emptyCatAcc, moderate := emptyCatAcc, high := emptyCatAcc }

def addToCat (a : CatAcc) (p r : ℚ) : CatAcc :=
  { passTotal := a.passTotal + p, rushTotal := a.rushTotal + r,
    count := a.count + 1 }

/-- One loop iteration of `get_average_percentage_by_wind_speed`: rows
with null wind speed are skipped (`continue`). -/
def windStep (res : WindResults) (row : WindRow) : WindResults :=
  match windCategory row.max_wind_speed with
  | none => res
  | some WindCat.low =>
    { res with low := addToCat res.low (passRushPct row).1 (passRushPct row).2 }
  | some WindCat.moderate =>
    { res with moderate :=
        addToCat res.moderate (passRushPct row).1 (passRushPct row).2 }
  | some WindCat.high =>
    { res with high :=
        addToCat res.high (passRushPct row).1 (passRushPct row).2 }

def windAgg (rows : List WindRow) : WindResults :=
  rows.foldl windStep windResultsInit

def getCat (res : WindResults) : WindCat → CatAcc
  | WindCat.low => res.low
  | WindCat.moderate => res.moderate
  | WindCat.high => res.high

/-- Averages of `get_average_percentage_by_wind_speed`: totals divided by
count when the count is positive, else 0 for both averages. -/
def catAverage (a : CatAcc) : ℚ × ℚ :=
  if 0 < a.count then (a.passTotal / (a.count : ℚ), a.rushTotal / (a.count : ℚ))
  else (0, 0)

/-- One joined row consumed by `get_avg_score_per_percentage`; the
`total_points` column is taken as a rational (it is non-null in every
aggregated row, since Python `sum` would otherwise raise). -/
structure ScoreRow where
  total_points : ℚ
  c_att : Option (List Char)
deriving DecidableEq

structure RangeLists where
  r0to50 : List ℚ
  r51to60 : List ℚ
  r61to70 : List ℚ
  r71to100 : List ℚ
deriving DecidableEq

def rangeListsInit : RangeLists :=
  { r0to50 := [], r51to60 := [], r61to70 := [], r71to100 := [] }

/-- One loop iteration of `get_avg_score_per_percentage` (final.py): parse
`C_ATT`, compute the percentage, append `total_points` to the matching
range list; a percentage matching no range appends nowhere. -/
def scoreStep (acc : RangeLists) (row : ScoreRow) : RangeLists :=
  match pctRangeOf (completionPctAvg row.c_att) with
  | some PctRange.r0to50 => { acc with r0to50 := acc.r0to50 ++ [row.total_points] }
  | some PctRange.r51to60 => { acc with r51to60 := acc.r51to60 ++ [row.total_points] }
  | some PctRange.r61to70 => { acc with r61to70 := acc.r61to70 ++ [row.total_points] }
  | some PctRange.r71to100 => { acc with r71to100 := acc.r71to100 ++ [row.total_points] }
  | none => acc

def scoreAgg (rows : List ScoreRow) : RangeLists :=
  rows.foldl scoreStep rangeListsInit

def getRange (acc : RangeLists) : PctRange → List ℚ
  | PctRange.r0to50 => acc.r0to50
  | PctRange.r51to60 => acc.r51to60
  | PctRange.r61to70 => acc.r61to70
  | PctRange.r71to100 => acc.r71to100

/-- `sum(points) / len(points) if points else 0`. -/
def listAverage (points : List ℚ) : ℚ :=
  if points = [] then 0 else points.sum / (points.length : ℚ)

/-- C7 counterexample: the `get_completion_by_wind_speed` variant of the
wind bucketing classifies a wind speed of exactly 20 mph as moderate, not
high, refuting the claim that every variant classifies 20 as high. -/
theorem wind_speed_20_cex :
    windCategoryCompletion (some 20) = some WindCat.moderate ∧
    windCategoryCompletion (some 20) ≠ some WindCat.high ∧
    windCategory (some 20) = some WindCat.high := by
  refine ⟨by decide, by decide, by decide⟩

/-- C7 (amended): both wind bucketings classify w as low exactly when
w < 10; `get_average_percentage_by_wind_speed` takes moderate exactly on
10 <= w < 20 and high exactly on w >= 20, while
`get_completion_by_wind_speed` takes moderate exactly on 10 <= w <= 20 and
high exactly on w > 20; so w = 20 is high in the former variant but
moderate in the latter. -/
theorem wind_bucket_boundaries (w : ℚ) :
    (windCategory (some w) = some WindCat.low ↔ w < 10) ∧
    (windCategory (some w) = some WindCat.moderate ↔ 10 ≤ w ∧ w < 20) ∧
    (windCategory (some w) = some WindCat.high ↔ 20 ≤ w) ∧
    (windCategoryCompletion (some w) = some WindCat.low ↔ w < 10) ∧
    (windCategoryCompletion (some w) = some WindCat.moderate ↔ 10 ≤ w ∧ w ≤ 20) ∧
    (windCategoryCompletion (some w) = some WindCat.high ↔ 20 < w) := by
  by_cases h1 : w < 10
  · have a1 : ¬(10 ≤ w ∧ w < 20) := by rintro ⟨h, _⟩; linarith
    have a2 : ¬(20 ≤ w) := by linarith
    have a3 : ¬(10 ≤ w ∧ w ≤ 20) := by rintro ⟨h, _⟩; linarith
    have a4 : ¬(20 < w) := by linarith
    simp [windCategory, windCategoryCompletion, h1, a1, a2, a3, a4]
  · have h10 : 10 ≤ w := le_of_not_lt h1
    by_cases h2 : w < 20
    · have b1 : ¬(20 ≤ w) := by linarith
      have b2 : ¬(20 < w) := by linarith
      simp [windCategory, windCategoryCompletion, h1, h10, h2, le_of_lt h2,
        b1, b2]
    · have h20 : 20 ≤ w := le_of_not_lt h2
      by_cases h3 : w ≤ 20
      · have hmod : 10 ≤ w ∧ w ≤ 20 := ⟨h10, h3⟩
        have c1 : ¬(10 ≤ w ∧ w < 20) := by rintro ⟨_, h⟩; linarith
        have c2 : ¬(20 < w) := by linarith
        simp [windCategory, windCategoryCompletion, h1, h2, h20, hmod, c1, c2]
      · have h20s : 20 < w := lt_of_not_le h3
        have d1 : ¬(10 ≤ w ∧ w < 20) := by rintro ⟨_, h⟩; linarith
        have d2 : ¬(10 ≤ w ∧ w ≤ 20) := by rintro ⟨_, h⟩; linarith
        simp [windCategory, windCategoryCompletion, h1, h2, h20, h20s, d1, d2]

/-- A concrete joined row whose `C_ATT` string is "101-200", giving a
completion percentage of exactly 50.5. -/
def gapScoreRow : ScoreRow :=
  { total_points := 21, c_att := some ['1', '0', '1', '-', '2', '0', '0'] }

/-- C2 counterexample: a record with `completed = 101`, `attempted = 200`
(non-null metric, completion percentage 50.5, inside [0, 100]) is placed
in zero of the four completion ranges: the if/elif chain has gaps in
(50, 51), (60, 61) and (70, 71), so the aggregation drops the record. -/
theorem completion_range_gap_cex :
    completionPctInts (some 101) (some 200) = 101 / 2 ∧
    (0 : ℚ) ≤ 101 / 2 ∧ (101 : ℚ) / 2 ≤ 100 ∧
    pctRangeOf (completionPctInts (some 101) (some 200)) = none ∧
    pctRangeOf (completionPctAvg gapScoreRow.c_att) = none ∧
    scoreAgg [gapScoreRow] = rangeListsInit := by
  have hparse : parseCATT ['1', '0', '1', '-', '2', '0', '0'] =
      some (101, 200) := by decide
  have hints : completionPctInts (some 101) (some 200) = 101 / 2 := by
    simp only [completionPctInts]
    norm_num
  have havg : completionPctAvg gapScoreRow.c_att = 101 / 2 := by
    show completionPctAvg (some ['1', '0', '1', '-', '2', '0', '0']) = 101 / 2
    simp only [completionPctAvg, hparse]
    norm_num
  have hrange : pctRangeOf (101 / 2 : ℚ) = none := by
    unfold pctRangeOf
    norm_num
  refine ⟨hints, by norm_num, by norm_num, ?_, ?_, ?_⟩
  · rw [hints]; exact hrange
  · rw [havg]; exact hrange
  · show scoreStep rangeListsInit gapScoreRow = rangeListsInit
    unfold scoreStep
    rw [havg, hrange]

theorem existsUnique_some_eq {α : Type} {x : Option α} (a : α)
    (h : x = some a) : ∃! c, x = some c :=
  ⟨a, h, fun _ hy => by rw [h] at hy; exact (Option.some.inj hy).symm⟩

/-- C2 (amended): the wind-speed and temperature passes are total and
exclusive — every non-null metric lands in exactly one bucket, null
metrics land in zero buckets and leave the accumulators untouched; the
completion-percentage pass is exclusive but not total: a percentage in
[0,50] or [51,60] or [61,70] or [71,100] lands in exactly one range, while
a percentage strictly inside (50,51), (60,61) or (70,71) lands in no range
and the record is dropped from counts and averages. -/
theorem bucketing_total_exclusive_amended :
    (∀ w : ℚ, ∃! c : WindCat, windCategory (some w) = some c) ∧
    windCategory none = none ∧
    (∀ w : ℚ, ∃! c : WindCat, windCategoryCompletion (some w) = some c) ∧
    windCategoryCompletion none = none ∧
    (∀ (res : WindResults) (row : WindRow), row.max_wind_speed = none →
      windStep res row = res) ∧
    (∀ t : ℚ, ∃! c : TempCat, tempCategory (some t) = some c) ∧
    tempCategory none = none ∧
    (∀ p : ℚ,
      (p ≤ 50 ∨ (51 ≤ p ∧ p ≤ 60) ∨ (61 ≤ p ∧ p ≤ 70) ∨ (71 ≤ p ∧ p ≤ 100)) →
      ∃! k : PctRange, pctRangeOf p = some k) ∧
    (∀ p : ℚ, (50 < p ∧ p < 51) ∨ (60 < p ∧ p < 61) ∨ (70 < p ∧ p < 71) →
      pctRangeOf p = none) ∧
    (∀ (acc : RangeLists) (row : ScoreRow),
      pctRangeOf (completionPctAvg row.c_att) = none →
      scoreStep acc row = acc) := by
  refine ⟨?_, rfl, ?_, rfl, ?_, ?_, rfl, ?_, ?_, ?_⟩
  · intro w
    simp only [windCategory]
    split_ifs <;> exact existsUnique_some_eq _ rfl
  · intro w
    simp only [windCategoryCompletion]
    split_ifs <;> exact existsUnique_some_eq _ rfl
  · intro res row h
    unfold windStep
    rw [h]
    rfl
  · intro t
    simp only [tempCategory]
    split_ifs <;> exact existsUnique_some_eq _ rfl
  · intro p hp
    unfold pctRangeOf
    split_ifs with a b c d
    · exact existsUnique_some_eq _ rfl
    · exact existsUnique_some_eq _ rfl
    · exact existsUnique_some_eq _ rfl
    · exact existsUnique_some_eq _ rfl
    · exfalso
      push_neg at b c d
      rcases hp with h | ⟨x, y⟩ | ⟨x, y⟩ | ⟨x, y⟩
      · exact a h
      · linarith [b x]
      · linarith [c x]
      · linarith [d x]
  · intro p hp
    unfold pctRangeOf
    split_ifs with a b c d
    · exfalso
      rcases hp with ⟨x, y⟩ | ⟨x, y⟩ | ⟨x, y⟩ <;> linarith
    · exfalso
      rcases hp with ⟨x, y⟩ | ⟨x, y⟩ | ⟨x, y⟩ <;> linarith [b.1, b.2]
    · exfalso
      rcases hp with ⟨x, y⟩ | ⟨x, y⟩ | ⟨x, y⟩ <;> linarith [c.1, c.2]
    · exfalso
      rcases hp with ⟨x, y⟩ | ⟨x, y⟩ | ⟨x, y⟩ <;> linarith [d.1, d.2]
    · rfl
  · intro acc row h
    unfold scoreStep
    rw [h]

/-- A concrete row whose wind-speed metric is NULL, modelled after a game
whose opponent has no coordinate in the lookup table. -/
def nullWindRow : WindRow :=
  { rushingAttempts := some 30, completionAttempts := some 25,
    max_wind_speed := none }

/-- Witness for the amended C2 at concrete metric values. -/
theorem bucketing_total_exclusive_amended_witness :
    (∃! c : WindCat, windCategory (some 14) = some c) ∧
    (∃! c : TempCat, tempCategory (some 40) = some c) ∧
    (∃! k : PctRange, pctRangeOf 55 = some k) ∧
    pctRangeOf (121 / 2) = none ∧
    windStep windResultsInit nullWindRow = windResultsInit := by
  have h := bucketing_total_exclusive_amended
  exact ⟨h.1 14, h.2.2.2.2.2.1 40,
    h.2.2.2.2.2.2.2.1 55 (Or.inr (Or.inl (by norm_num))),
    h.2.2.2.2.2.2.2.2.1 (121 / 2) (Or.inr (Or.inl (by norm_num))),
    h.2.2.2.2.1 windResultsInit nullWindRow rfl⟩

theorem getCat_windStep_ne (res : WindResults) (row : WindRow) (c : WindCat)
    (h : windCategory row.max_wind_speed ≠ some c) :
    getCat (windStep res row) c = getCat res c := by
  unfold windStep
  cases hw : windCategory row.max_wind_speed with
  | none => rfl
  | some cat =>
    rw [hw] at h
    cases cat <;> cases c <;> simp_all [getCat]

theorem windAgg_foldl_ne (c : WindCat) :
    ∀ (rows : List WindRow) (init : WindResults),
      (∀ row ∈ rows, windCategory row.max_wind_speed ≠ some c) →
      getCat (rows.foldl windStep init) c = getCat init c := by
  intro rows
  induction rows with
  | nil => intro init _; rfl
  | cons r rs ih =>
    intro init hh
    rw [List.foldl_cons,
      ih (windStep init r) (fun row hrow => hh row (List.mem_cons_of_mem _ hrow))]
    exact getCat_windStep_ne init r c (hh r (List.mem_cons_self _ _))

theorem getRange_scoreStep_ne (acc : RangeLists) (row : ScoreRow)
    (k : PctRange)
    (h : pctRangeOf (completionPctAvg row.c_att) ≠ some k) :
    getRange (scoreStep acc row) k = getRange acc k := by
  unfold scoreStep
  cases hw : pctRangeOf (completionPctAvg row.c_att) with
  | none => rfl
  | some j =>
    rw [hw] at h
    cases j <;> cases k <;> simp_all [getRange]

theorem scoreAgg_foldl_ne (k : PctRange) :
    ∀ (rows : List ScoreRow) (init : RangeLists),
      (∀ row ∈ rows, pctRangeOf (completionPctAvg row.c_att) ≠ some k) →
      getRange (rows.foldl scoreStep init) k = getRange init k := by
  intro rows
  induction rows with
  | nil => intro init _; rfl
  | cons r rs ih =>
    intro init hh
    rw [List.foldl_cons,
      ih (scoreStep init r) (fun row hrow => hh row (List.mem_cons_of_mem _ hrow))]
    exact getRange_scoreStep_ne init r k (hh r (List.mem_cons_self _ _))

/-- C9: a bucket that receives zero records reports an average of exactly
0 in both cited aggregations; its count/list stays empty, so the guarded
division (`count > 0` / `if points`) is never taken and no division by
zero occurs. -/
theorem empty_bucket_average_zero :
    (∀ (rows : List WindRow) (c : WindCat),
      (∀ row ∈ rows, windCategory row.max_wind_speed ≠ some c) →
      (getCat (windAgg rows) c).count = 0 ∧
      catAverage (getCat (windAgg rows) c) = (0, 0)) ∧
    (∀ (rows : List ScoreRow) (k : PctRange),
      (∀ row ∈ rows, pctRangeOf (completionPctAvg row.c_att) ≠ some k) →
      getRange (scoreAgg rows) k = [] ∧
      listAverage (getRange (scoreAgg rows) k) = 0) := by
  constructor
  · intro rows c h
    have he : getCat (windAgg rows) c = emptyCatAcc := by
      unfold windAgg
      rw [windAgg_foldl_ne c rows windResultsInit h]
      cases c <;> rfl
    rw [he]
    exact ⟨rfl, rfl⟩
  · intro rows k h
    have he : getRange (scoreAgg rows) k = [] := by
      unfold scoreAgg
      rw [scoreAgg_foldl_ne k rows rangeListsInit h]
      cases k <;> rfl
    rw [he]
    exact ⟨rfl, rfl⟩

/-- A concrete row that lands in the low-wind bucket. -/
def lowWindRow : WindRow :=
  { rushingAttempts := some 30, completionAttempts := some 25,
    max_wind_speed := some 5 }

/-- Witness for C9: with a single low-wind record, the high bucket is
empty and its averages are 0; with no records at all, the "71-100" range
average is 0. -/
theorem empty_bucket_average_zero_witness :
    catAverage (getCat (windAgg [lowWindRow]) WindCat.high) = (0, 0) ∧
    listAverage (getRange (scoreAgg []) PctRange.r71to100) = 0 := by
  have h1 := (empty_bucket_average_zero.1 [lowWindRow] WindCat.high
    (by
      intro row hrow
      have : row = lowWindRow := by simpa using hrow
      subst this
      show windCategory (some 5) ≠ some WindCat.high
      simp [windCategory]
      decide)).2
  have h2 := (empty_bucket_average_zero.2 [] PctRange.r71to100
    (by intro row hrow; simp at hrow)).2
  exact ⟨h1, h2⟩

/-- Python exceptions that the stats extraction can raise. -/
inductive PyErr
  | attributeError
  | valueError
  | indexError
  | unboundLocalError
deriving DecidableEq

/-- One `{category, stat}` pair from a per-school stat block. -/
structure StatPair where
  category : String
  stat : String
deriving DecidableEq

/-- One per-school stat block of a `/games/teams` game object. -/
structure TeamBlock where
  school : String
  stats : List StatPair
deriving DecidableEq

/-- One raw game object from the `/games/teams` endpoint. -/
structure RawTeamGame where
  id : Option ℤ
  teams : List TeamBlock
deriving DecidableEq

/-- `next((stat['stat'] for stat in stats if stat['category'] == c), None)`:
first matching category wins, absent category yields null. -/
def lookupStat (tb : TeamBlock) (c : String) : Option String :=
  (tb.stats.find? (fun p => p.category == c)).map (fun p => p.stat)

/-- The local variables assigned inside `if michigan_data:` in apis.py
`get_michigan_team_results`; they survive to later loop iterations. -/
structure StatVals where
  rushing_attempts : Option String
  pass_attempts : String
  completed : ℕ
  attempted : ℕ
  rushing_yards : Option String
  passing_yards : Option String
deriving DecidableEq

/-- apis.py stats extraction for one Michigan block, lines 285-291:
`completed, attempted = map(int, c_att.split('-'))` raises
`AttributeError` when the completionAttempts category is missing (null)
and `ValueError` when the split is not two integer chunks. -/
def extractMichiganStats (mb : TeamBlock) : Except PyErr StatVals :=
  match lookupStat mb "completionAttempts" with
  | none => Except.error PyErr.attributeError
  | some ca =>
    match splitSep '-' ca.data with
    | [p1, p2] =>
      match parseDigits p1, parseDigits p2 with
      | some c, some a =>
        Except.ok { rushing_attempts := lookupStat mb "rushingAttempts",
                    pass_attempts := String.mk p2,
                    completed := c, attempted := a,
                    rushing_yards := lookupStat mb "rushingYards",
                    passing_yards := lookupStat mb "netPassingYards" }
      | _, _ => Except.error PyErr.valueError
    | _ => Except.error PyErr.valueError

/-- One record appended to `self.teams_list`. -/
structure TeamsRec where
  gameID : Option ℤ
  rushingAttempts : Option String
  completionAttempts : String
  completed : ℕ
  attempted : ℕ
  rushingYards : Option String
  passingYards : Option String
deriving DecidableEq

def mkTeamsRec (gid : Option ℤ) (v : StatVals) : TeamsRec :=
  { gameID := gid, rushingAttempts := v.rushing_attempts,
    completionAttempts := v.pass_attempts, completed := v.completed,
    attempted := v.attempted, rushingYards := v.rushing_yards,
    passingYards := v.passing_yards }

/-- The per-game loop of apis.py `get_michigan_team_results`. The
`self.teams_list.append(...)` call sits outside `if michigan_data:`, so a
game without a Michigan block still appends a record, built from the loop
variables of the previous iteration — or raises `UnboundLocalError` when
no previous iteration assigned them. -/
def teamResultsLoop :
    Option StatVals → List TeamsRec → List RawTeamGame →
      Except PyErr (List TeamsRec)
  | _, acc, [] => Except.ok acc
  | st, acc, g :: gs =>
    match g.teams.find? (fun t => t.school == "Michigan") with
    | some mb =>
      match extractMichiganStats mb with
      | Except.error e => Except.error e
      | Except.ok v => teamResultsLoop (some v) (acc ++ [mkTeamsRec g.id v]) gs
    | none =>
      match st with
      | none => Except.error PyErr.unboundLocalError
      | some v => teamResultsLoop (some v) (acc ++ [mkTeamsRec g.id v]) gs

/-- apis.py `get_michigan_team_results` on freshly constructed state. -/
def get_michigan_team_results (data : List RawTeamGame) :
    Except PyErr (List TeamsRec) :=
  teamResultsLoop none [] data

/-- The stat values extracted by final.py `get_michigan_team_results`
(no int conversion; `pass_attempts = completion_attempts.split('-')[1]`
raises `IndexError` on a split without a second chunk and
`AttributeError` on null). -/
structure FinalStatVals where
  rushing_attempts : Option String
  pass_attempts : String
  c_att : String
  rushing_yards : Option String
  passing_yards : Option String
deriving DecidableEq

def extractMichiganStatsFinal (mb : TeamBlock) : Except PyErr FinalStatVals :=
  match lookupStat mb "completionAttempts" with
  | none => Except.error PyErr.attributeError
  | some ca =>
    match (splitSep '-' ca.data).get? 1 with
    | none => Except.error PyErr.indexError
    | some p2 =>
      Except.ok { rushing_attempts := lookupStat mb "rushingAttempts",
                  pass_attempts := String.mk p2, c_att := ca,
                  rushing_yards := lookupStat mb "rushingYards",
                  passing_yards := lookupStat mb "netPassingYards" }

/-- final.py `get_michigan_team_results`: here `insert_game_stats` is
called inside `if michigan_data:`, so a game with no Michigan block
inserts nothing. -/
def get_michigan_team_results_final :
    List GameStatsRec → List RawTeamGame → Except PyErr (List GameStatsRec)
  | db, [] => Except.ok db
  | db, g :: gs =>
    match g.teams.find? (fun t => t.school == "Michigan") with
    | none => get_michigan_team_results_final db gs
    | some mb =>
      match extractMichiganStatsFinal mb with
      | Except.error e => Except.error e
      | Except.ok v =>
        get_michigan_team_results_final
          (insert_game_stats db
            { gameID := g.id, rushingAttempts := v.rushing_attempts,
              completionAttempts := some v.pass_attempts,
              c_att := some v.c_att, rushingYards := v.rushing_yards,
              passingYards := v.passing_yards }) gs

/-- A Michigan block with no completionAttempts category. -/
def blockNoCATT : TeamBlock :=
  { school := "Michigan",
    stats := [{ category := "rushingAttempts", stat := "38" }] }

/-- A Michigan block whose completionAttempts string has no separator. -/
def blockOnePart : TeamBlock :=
  { school := "Michigan",
    stats := [{ category := "completionAttempts", stat := "18" }] }

/-- A Michigan block whose completionAttempts chunks are not integers. -/
def blockAlpha : TeamBlock :=
  { school := "Michigan",
    stats := [{ category := "completionAttempts", stat := "a-b" }] }

def gameNoCATT : RawTeamGame := { id := some 1, teams := [blockNoCATT] }

def gameOnePart : RawTeamGame := { id := some 2, teams := [blockOnePart] }

def gameAlpha : RawTeamGame := { id := some 3, teams := [blockAlpha] }

/-- C4: contrary to the claim, the stats extraction does propagate
exceptions: a missing completionAttempts category raises AttributeError
and a malformed string raises ValueError (apis.py) or IndexError
(final.py); no value degrades to 0. -/
theorem completion_attempts_crash :
    get_michigan_team_results [gameNoCATT] =
      Except.error PyErr.attributeError ∧
    get_michigan_team_results [gameOnePart] =
      Except.error PyErr.valueError ∧
    get_michigan_team_results [gameAlpha] =
      Except.error PyErr.valueError ∧
    get_michigan_team_results_final [] [gameNoCATT] =
      Except.error PyErr.attributeError ∧
    get_michigan_team_results_final [] [gameOnePart] =
      Except.error PyErr.indexError := by
  exact ⟨rfl, rfl, rfl, rfl, rfl⟩

/-- A Michigan block with a well-formed completionAttempts string. -/
def blockGood : TeamBlock :=
  { school := "Michigan",
    stats := [{ category := "completionAttempts", stat := "18-29" }] }

def gameWithMich : RawTeamGame := { id := some 10, teams := [blockGood] }

/-- A game whose per-school blocks contain no Michigan entry. -/
def blockOSU : TeamBlock := { school := "Ohio State", stats := [] }

def gameNoMich : RawTeamGame := { id := some 11, teams := [blockOSU] }

/-- The stat values extracted from `blockGood`. -/
def valsGood : StatVals :=
  { rushing_attempts := none, pass_attempts := "29", completed := 18,
    attempted := 29, rushing_yards := none, passing_yards := none }

/-- C5: contrary to the claim, apis.py appends a stats record even for a
game with no Michigan block: the record carries the new gameId but the
stat values of the previous game, and when the very first game has no
Michigan block the loop raises UnboundLocalError. The final.py variant
does skip such games silently. -/
theorem missing_team_block_record :
    get_michigan_team_results [gameWithMich, gameNoMich] =
      Except.ok [mkTeamsRec (some 10) valsGood,
                 mkTeamsRec (some 11) valsGood] ∧
    get_michigan_team_results [gameNoMich] =
      Except.error PyErr.unboundLocalError ∧
    get_michigan_team_results_final [] [gameNoMich] = Except.ok [] := by
  exact ⟨rfl, rfl, rfl⟩

/-- One weather record appended to `self.weather_list`, keyed by the
gameId of the game it was fetched for. -/
structure WeatherRec where
  gameID : Option ℤ
  max_temperature : Option ℚ
  min_temperature : Option ℚ
  mean_temperature : Option ℚ
  precipitation_sum : Option ℚ
  rain_sum : Option ℚ
  snowfall_sum : Option ℚ
  max_wind_speed : Option ℚ
  max_wind_gust : Option ℚ
deriving DecidableEq

/-- The dictionary merge `{**game_result, **game_stats, **weather_data}`:
later dictionaries override shared keys (only `gameID` is shared, and the
lookup makes the values agree); keys of an absent stats/weather lookup
(`next(..., {})`) stay absent, observed as null by the insert's `.get`. -/
def combineRecords (gr : GameResultRec) (st : Option TeamsRec)
    (w : Option WeatherRec) : CombinedRec :=
  { gameID := (match w with
               | some wr => wr.gameID
               | none => (match st with
                          | some s => s.gameID
                          | none => gr.gameID)),
    date := gr.date,
    home_away := gr.home_away,
    opponent := gr.opponent,
    total_points := gr.total_points,
    rushingAttempts := st.bind (fun s => s.rushingAttempts),
    completionAttempts := st.map (fun s => s.completionAttempts),
    completed := st.map (fun s => (s.completed : ℤ)),
    attempted := st.map (fun s => (s.attempted : ℤ)),
    rushingYards := st.bind (fun s => s.rushingYards),
    passingYards := st.bind (fun s => s.passingYards),
    max_temperature := w.bind (fun x => x.max_temperature),
    min_temperature := w.bind (fun x => x.min_temperature),
    mean_temperature := w.bind (fun x => x.mean_temperature),
    precipitation_sum := w.bind (fun x => x.precipitation_sum),
    rain_sum := w.bind (fun x => x.rain_sum),
    snowfall_sum := w.bind (fun x => x.snowfall_sum),
    max_wind_speed := w.bind (fun x => x.max_wind_speed),
    max_wind_gust := w.bind (fun x => x.max_wind_gust) }

/-- The merge loop at the end of apis.py `fetch_michigan_data`: one
combined record per game result, stats and weather looked up by gameId
with `next(..., {})` (first match wins, empty default). -/
def fetch_michigan_data_combine (results : List GameResultRec)
    (stats : List TeamsRec) (weather : List WeatherRec) : List CombinedRec :=
  results.map (fun gr =>
    combineRecords gr
      (stats.find? (fun s => s.gameID == gr.gameID))
      (weather.find? (fun w => w.gameID == gr.gameID)))

/-- `find?` returns the first element satisfying the predicate. -/
theorem find?_first {α : Type} (p : α → Bool) :
    ∀ (l : List α) (a : α), l.find? p = some a →
      ∃ l1 l2, l = l1 ++ a :: l2 ∧ p a = true ∧ ∀ x ∈ l1, p x = false := by
  intro l
  induction l with
  | nil => intro a h; simp at h
  | cons x xs ih =>
    intro a h
    by_cases hp : p x = true
    · rw [List.find?_cons_of_pos _ hp] at h
      obtain rfl : x = a := Option.some.inj h
      exact ⟨[], xs, rfl, hp, by intro y hy; simp at hy⟩
    · rw [List.find?_cons_of_neg _ (by simpa using hp)] at h
      obtain ⟨l1, l2, rfl, hpa, hall⟩ := ih a h
      refine ⟨x :: l1, l2, rfl, hpa, ?_⟩
      intro y hy
      rcases List.mem_cons.mp hy with rfl | hy2
      · simpa using hp
      · exact hall y hy2

/-- C8: the merge produces exactly one combined record per GameResult
(same length, i-th record built from the i-th result); the stats and
weather lookups are keyed by gameId with first-match-wins; and when no
stats or no weather record matches a game, the lookup yields the empty
default and every stats/weather field of the combined record is null —
no error is raised. -/
theorem merge_one_record_per_result (rs : List GameResultRec)
    (ss : List TeamsRec) (ws : List WeatherRec) :
    (fetch_michigan_data_combine rs ss ws).length = rs.length ∧
    (∀ i : ℕ, (fetch_michigan_data_combine rs ss ws)[i]? =
      (rs[i]?).map (fun gr => combineRecords gr
        (ss.find? (fun s => s.gameID == gr.gameID))
        (ws.find? (fun w => w.gameID == gr.gameID)))) ∧
    (∀ (gr : GameResultRec) (s : TeamsRec),
      ss.find? (fun s2 => s2.gameID == gr.gameID) = some s →
      s.gameID = gr.gameID ∧
      ∃ l1 l2, ss = l1 ++ s :: l2 ∧ ∀ s2 ∈ l1, s2.gameID ≠ gr.gameID) ∧
    (∀ gr : GameResultRec, (∀ s ∈ ss, s.gameID ≠ gr.gameID) →
      ss.find? (fun s2 => s2.gameID == gr.gameID) = none) ∧
    (∀ gr : GameResultRec, (∀ w ∈ ws, w.gameID ≠ gr.gameID) →
      ws.find? (fun w2 => w2.gameID == gr.gameID) = none) ∧
    (∀ (gr : GameResultRec) (w : Option WeatherRec),
      (combineRecords gr none w).completed = none ∧
      (combineRecords gr none w).attempted = none ∧
      (combineRecords gr none w).rushingAttempts = none ∧
      (combineRecords gr none w).completionAttempts = none ∧
      (combineRecords gr none w).rushingYards = none ∧
      (combineRecords gr none w).passingYards = none) ∧
    (∀ (gr : GameResultRec) (st : Option TeamsRec),
      (combineRecords gr st none).max_wind_speed = none ∧
      (combineRecords gr st none).mean_temperature = none ∧
      (combineRecords gr st none).max_temperature = none ∧
      (combineRecords gr st none).precipitation_sum = none) := by
  refine ⟨?_, ?_, ?_, ?_, ?_, ?_, ?_⟩
  · simp [fetch_michigan_data_combine]
  · intro i
    simp [fetch_michigan_data_combine]
  · intro gr s hfind
    obtain ⟨l1, l2, rfl, hpa, hall⟩ := find?_first _ ss s hfind
    refine ⟨by simpa using hpa, l1, l2, rfl, ?_⟩
    intro s2 hs2
    have := hall s2 hs2
    simpa using this
  · intro gr hnone
    rw [List.find?_eq_none]
    intro s hs
    simpa using hnone s hs
  · intro gr hnone
    rw [List.find?_eq_none]
    intro w hw
    simpa using hnone w hw
  · intro gr w
    exact ⟨rfl, rfl, rfl, rfl, rfl, rfl⟩
  · intro gr st
    exact ⟨rfl, rfl, rfl, rfl⟩

/-- A concrete game result for the merge witness. -/
def grWitness : GameResultRec :=
  { gameID := some 10, date := [], home_away := HomeAway.home,
    opponent := some "Ohio State", total_points := some 30 }

/-- Witness for C8: one result, one matching stats record, no weather. -/
theorem merge_one_record_per_result_witness :
    (fetch_michigan_data_combine [grWitness]
      [mkTeamsRec (some 10) valsGood] []).length = 1 ∧
    (mkTeamsRec (some 10) valsGood).gameID = grWitness.gameID ∧
    List.find? (fun w => w.gameID == grWitness.gameID)
      ([] : List WeatherRec) = none ∧
    (combineRecords grWitness none none).completed = none := by
  have h := merge_one_record_per_result [grWitness]
    [mkTeamsRec (some 10) valsGood] ([] : List WeatherRec)
  have hfind : List.find? (fun s => s.gameID == grWitness.gameID)
      [mkTeamsRec (some 10) valsGood] = some (mkTeamsRec (some 10) valsGood) := by
    rfl
  refine ⟨h.1, (h.2.2.1 grWitness (mkTeamsRec (some 10) valsGood) hfind).1,
    ?_, ?_⟩
  · exact h.2.2.2.2.1 grWitness (by intro w hw; simp at hw)
  · exact (h.2.2.2.2.2.1 grWitness none).1

end MFootball
